import Mathlib

/-!
Verification of the Data Access Gateway of the Census DBMS repository.

The definitions below are a shallow embedding of the Python source:

* `app/utils/db_service.py` — `CensusService.search_individuals`,
  `get_geographical_info`, `get_households`, `get_individuals`, and the
  stored-procedure CRUD methods (`create_*`, `update_*`, `delete_*`);
* `app/database/oracle_connection.py` — `OracleConnectionManager`
  (`get_session_context`, the SQLAlchemy `QueuePool` configuration) and
  `DirectOracleConnection.get_connection`;
* `app/models/pydantic_models.py` — `PaginationParams`, `SearchFilters`;
* `app/routes/census_routes.py` — the page-count formula of the
  `/search/individuals` route.

Stateful Python (context managers, cursors, the connection pool) is embedded
as explicit event traces and state-transition functions; SQL queries over the
database are embedded as list-processing functions over a snapshot of the
relevant tables.
-/

/-! ## Basic list machinery: insertion sort (for ORDER BY) and row numbering
(for ROW_NUMBER) -/

def insertLe {α : Type} (le : α → α → Bool) (x : α) : List α → List α
  | [] => [x]
  | y :: ys => if le x y then x :: y :: ys else y :: insertLe le x ys

def sortByLe {α : Type} (le : α → α → Bool) : List α → List α
  | [] => []
  | x :: xs => insertLe le x (sortByLe le xs)

def numberFrom {α : Type} (n : Nat) : List α → List (α × Nat)
  | [] => []
  | x :: xs => (x, n) :: numberFrom (n + 1) xs

theorem mem_insertLe {α : Type} (le : α → α → Bool) (x a : α) (l : List α) :
    a ∈ insertLe le x l ↔ a = x ∨ a ∈ l := by
  induction l with
  | nil => simp [insertLe]
  | cons y ys ih =>
    simp only [insertLe]
    split
    · simp
    · simp [ih]
      tauto

theorem mem_sortByLe {α : Type} (le : α → α → Bool) (a : α) (l : List α) :
    a ∈ sortByLe le l ↔ a ∈ l := by
  induction l with
  | nil => simp [sortByLe]
  | cons x xs ih => simp [sortByLe, mem_insertLe, ih]

theorem mem_of_mem_numberFrom {α : Type} {n : Nat} {l : List α} {p : α × Nat}
    (h : p ∈ numberFrom n l) : p.1 ∈ l := by
  induction l generalizing n with
  | nil => simp [numberFrom] at h
  | cons x xs ih =>
    simp only [numberFrom, List.mem_cons] at h
    rcases h with h | h
    · simp [h]
    · exact List.mem_cons_of_mem _ (ih h)

/-! ## Data model for the search and read queries

Rows of the three tables joined by `search_individuals`
(`INDIVIDUAL i JOIN HOUSEHOLD h ON i.household_id = h.household_id
JOIN GEOGRAPHICAL_INFO g ON h.geo_id = g.geo_id`). -/

/-- `Sex(str, Enum)` from `pydantic_models.py`: values `"M"` / `"F"`. -/
inductive Sex where
  | male
  | female
deriving DecidableEq

/-- `.value` of the `Sex` enum member, as bound into the SQL parameters. -/
def Sex.value : Sex → String
  | .male => "M"
  | .female => "F"

/-- A row of `GEOGRAPHICAL_INFO` (the columns the embedded queries touch). -/
structure GeoRow where
  geo_id : Int
  region_name : String
  district_name : String
  locality_name : String
deriving DecidableEq

/-- A row of `HOUSEHOLD` (the columns the embedded queries touch). -/
structure HouseholdRow where
  household_id : Int
  geo_id : Int
deriving DecidableEq

/-- A row of `INDIVIDUAL` / `V_INDIVIDUAL_DETAILS`
(the columns the embedded queries touch). -/
structure IndividualRow where
  individual_id : Int
  household_id : Int
  sex : String
  age : Int
  marital_status : String
  highest_education_level : String
deriving DecidableEq

/-- A snapshot of the three tables consulted by `search_individuals`. -/
structure Snapshot where
  individuals : List IndividualRow
  households : List HouseholdRow
  geos : List GeoRow
deriving DecidableEq

/-- One row of the joined relation
`INDIVIDUAL i JOIN HOUSEHOLD h JOIN GEOGRAPHICAL_INFO g`. -/
structure JoinedRow where
  ind : IndividualRow
  geo : GeoRow
deriving DecidableEq

/-- The inner join of the three tables on
`i.household_id = h.household_id` and `h.geo_id = g.geo_id`. -/
def joinRows (s : Snapshot) : List JoinedRow :=
  s.individuals.flatMap fun i =>
    (s.households.filter fun h => h.household_id == i.household_id).flatMap fun h =>
      (s.geos.filter fun g => g.geo_id == h.geo_id).map fun g => ⟨i, g⟩

/-! ## `SearchFilters` and the dynamically built WHERE clause
(`db_service.py`, `search_individuals`, lines 529-563) -/

/-- `SearchFilters` from `pydantic_models.py`: all fields optional. -/
structure SearchFilters where
  region_name : Option String
  district_name : Option String
  sex : Option Sex
  min_age : Option Int
  max_age : Option Int
  marital_status : Option String
  education_level : Option String
deriving DecidableEq

/-- One parameterized predicate appended to `where_conditions`,
carrying its bound value. -/
inductive Cond where
  | regionEq (v : String)
  | districtEq (v : String)
  | sexEq (v : String)
  | ageGe (v : Int)
  | ageLe (v : Int)
  | maritalEq (v : String)
  | educationEq (v : String)
deriving DecidableEq

/-- `if filters.region_name:` — Python truthiness on `Optional[str]`: an
empty string is falsy, so it contributes no condition. -/
def regionConds (f : SearchFilters) : List Cond :=
  match f.region_name with
  | some s => if s != "" then [Cond.regionEq s] else []
  | none => []

/-- `if filters.district_name:` -/
def districtConds (f : SearchFilters) : List Cond :=
  match f.district_name with
  | some s => if s != "" then [Cond.districtEq s] else []
  | none => []

/-- `if filters.sex:` — a `Sex` enum member is always truthy, and the code
binds `filters.sex.value`. -/
def sexConds (f : SearchFilters) : List Cond :=
  match f.sex with
  | some sx => [Cond.sexEq sx.value]
  | none => []

/-- `if filters.min_age is not None:` — an explicit `is not None` test, so
age 0 does contribute a condition. -/
def minAgeConds (f : SearchFilters) : List Cond :=
  match f.min_age with
  | some v => [Cond.ageGe v]
  | none => []

/-- `if filters.max_age is not None:` -/
def maxAgeConds (f : SearchFilters) : List Cond :=
  match f.max_age with
  | some v => [Cond.ageLe v]
  | none => []

/-- `if filters.marital_status:` -/
def maritalConds (f : SearchFilters) : List Cond :=
  match f.marital_status with
  | some s => if s != "" then [Cond.maritalEq s] else []
  | none => []

/-- `if filters.education_level:` -/
def educationConds (f : SearchFilters) : List Cond :=
  match f.education_level with
  | some s => if s != "" then [Cond.educationEq s] else []
  | none => []

/-- The `where_conditions` list built by `search_individuals`,
in source order. -/
def whereConditions (f : SearchFilters) : List Cond :=
  regionConds f ++ districtConds f ++ sexConds f ++ minAgeConds f ++
    maxAgeConds f ++ maritalConds f ++ educationConds f

/-- SQL text of one condition, as appended by the source. -/
def condText : Cond → String
  | .regionEq _ => "g.region_name = :region_name"
  | .districtEq _ => "g.district_name = :district_name"
  | .sexEq _ => "i.sex = :sex"
  | .ageGe _ => "i.age >= :min_age"
  | .ageLe _ => "i.age <= :max_age"
  | .maritalEq _ => "i.marital_status = :marital_status"
  | .educationEq _ => "i.highest_education_level = :education_level"

/-- `where_clause = " AND ".join(where_conditions) if where_conditions
else "1=1"`. -/
def whereClauseStr (f : SearchFilters) : String :=
  let cs := (whereConditions f).map condText
  if cs.isEmpty then "1=1" else String.intercalate " AND " cs

/-- Truth value of one condition on a joined row. -/
def evalCond : Cond → JoinedRow → Bool
  | .regionEq v, r => r.geo.region_name == v
  | .districtEq v, r => r.geo.district_name == v
  | .sexEq v, r => r.ind.sex == v
  | .ageGe v, r => decide (v ≤ r.ind.age)
  | .ageLe v, r => decide (r.ind.age ≤ v)
  | .maritalEq v, r => r.ind.marital_status == v
  | .educationEq v, r => r.ind.highest_education_level == v

/-- The AND of all built conditions (the empty conjunction is `1=1`,
i.e. true). -/
def rowMatches (f : SearchFilters) (r : JoinedRow) : Bool :=
  (whereConditions f).all fun c => evalCond c r

/-! ## Pagination (`pydantic_models.py` lines 355-362,
`db_service.py` lines 578-592) -/

/-- `PaginationParams`: 1-based `page` (validated `ge=1`) and `size`
(validated `ge=1, le=100`). -/
structure PaginationParams where
  page : Nat
  size : Nat
deriving DecidableEq

/-- `offset = (page - 1) * size`. -/
def PaginationParams.offset (p : PaginationParams) : Nat :=
  (p.page - 1) * p.size

/-- `params['start_row'] = pagination.offset + 1`. -/
def startRow (p : PaginationParams) : Nat := p.offset + 1

/-- `params['end_row'] = pagination.offset + pagination.size`. -/
def endRow (p : PaginationParams) : Nat := p.offset + p.size

/-! ## The two queries of `search_individuals` -/

/-- The rows of the joined relation that satisfy the WHERE clause: the set
both the count query and the data query range over. -/
def searchMatched (f : SearchFilters) (s : Snapshot) : List JoinedRow :=
  (joinRows s).filter (rowMatches f)

/-- `ROW_NUMBER() OVER (ORDER BY i.individual_id) as rn`: rank the matching
rows by ascending `individual_id`, numbering from 1. -/
def indLe (a b : JoinedRow) : Bool :=
  decide (a.ind.individual_id ≤ b.ind.individual_id)

/-- The inner subquery of the data query: each matching row paired with its
row number `rn`. -/
def searchNumbered (f : SearchFilters) (s : Snapshot) : List (JoinedRow × Nat) :=
  numberFrom 1 (sortByLe indLe (searchMatched f s))

/-- The outer data query: `WHERE rn BETWEEN :start_row AND :end_row`
(`BETWEEN` is inclusive on both ends). -/
def searchPageRows (f : SearchFilters) (p : PaginationParams) (s : Snapshot) :
    List (JoinedRow × Nat) :=
  (searchNumbered f s).filter fun pr =>
    decide (startRow p ≤ pr.2) && decide (pr.2 ≤ endRow p)

/-- The count query: `SELECT COUNT(*) ... WHERE {where_clause}` over the
identical joins and predicate. -/
def totalCountOf (f : SearchFilters) (s : Snapshot) : Nat :=
  (searchMatched f s).length

/-- `CensusService.search_individuals`: returns `(data_result, total_count)`. -/
def search_individuals (f : SearchFilters) (p : PaginationParams)
    (s : Snapshot) : List (JoinedRow × Nat) × Nat :=
  (searchPageRows f p s, totalCountOf f s)

/-! ## Claim theorems -/

/-- C1: for every page ≥ 1 and size in 1..100, `search_individuals` restricts
the data query to exactly the inclusive row-number range
`[(page-1)*size+1, (page-1)*size+size]`, where rows are numbered by
`ROW_NUMBER` ordered on `individual_id` ascending; a numbered row is returned
iff its rank lies in that range. -/
theorem C1_search_row_range (page size : Nat) (h1 : 1 ≤ page) (h2 : 1 ≤ size)
    (h3 : size ≤ 100) :
    startRow ⟨page, size⟩ = (page - 1) * size + 1 ∧
    endRow ⟨page, size⟩ = (page - 1) * size + size ∧
    ∀ (f : SearchFilters) (s : Snapshot) (pr : JoinedRow × Nat),
      pr ∈ searchNumbered f s →
      (pr ∈ (search_individuals f ⟨page, size⟩ s).1 ↔
        (page - 1) * size + 1 ≤ pr.2 ∧ pr.2 ≤ (page - 1) * size + size) := by
  refine ⟨rfl, rfl, ?_⟩
  intro f s pr hmem
  simp [search_individuals, searchPageRows, List.mem_filter, hmem, startRow,
    endRow, PaginationParams.offset]

/-- C1 witness: at page 3, size 10 the selected row range is rows 21..30
(and the hypotheses 1 ≤ 3, 1 ≤ 10, 10 ≤ 100 hold). -/
theorem C1_search_row_range_witness :
    startRow ⟨3, 10⟩ = 21 ∧ endRow ⟨3, 10⟩ = 30 := by
  have h := C1_search_row_range 3 10 (by decide) (by decide) (by decide)
  exact ⟨h.1.trans (by decide), h.2.1.trans (by decide)⟩

/-- C3: the count query of `search_individuals` uses the identical predicate
set and joins as the data query, so the returned `total_count` depends only on
the filters and the snapshot: it is the same for every page requested, and it
equals the number of joined rows matching the filter. -/
theorem C3_total_count_page_invariant :
    ∀ (f : SearchFilters) (p p' : PaginationParams) (s : Snapshot),
      (search_individuals f p s).2 = (search_individuals f p' s).2 ∧
      (search_individuals f p s).2 = ((joinRows s).filter (rowMatches f)).length ∧
      ∀ pr ∈ (search_individuals f p s).1, rowMatches f pr.1 = true := by
  intro f p p' s
  refine ⟨rfl, rfl, ?_⟩
  intro pr hpr
  have h1 : pr ∈ searchNumbered f s :=
    List.mem_of_mem_filter hpr
  have h2 : pr.1 ∈ sortByLe indLe (searchMatched f s) :=
    mem_of_mem_numberFrom h1
  have h3 : pr.1 ∈ searchMatched f s := (mem_sortByLe _ _ _).mp h2
  exact (List.mem_filter.mp h3).2

/-! ## C2: condition count per present field -/

/-- The claim's notion of a present field: the `Optional` field was supplied
(is not `None`); `min_age` and `max_age` count separately. -/
def presentFieldCount (f : SearchFilters) : Nat :=
  (if f.region_name.isSome then 1 else 0) +
  (if f.district_name.isSome then 1 else 0) +
  (if f.sex.isSome then 1 else 0) +
  (if f.min_age.isSome then 1 else 0) +
  (if f.max_age.isSome then 1 else 0) +
  (if f.marital_status.isSome then 1 else 0) +
  (if f.education_level.isSome then 1 else 0)

/-- Python truthiness of an `Optional[str]` field: supplied and non-empty. -/
def strTruthy : Option String → Bool
  | none => false
  | some s => s != ""

/-- The code's notion of a present field: truthy for the four plain string
fields, `isSome` for the enum field and the two `is not None` age fields. -/
def truthyFieldCount (f : SearchFilters) : Nat :=
  (if strTruthy f.region_name then 1 else 0) +
  (if strTruthy f.district_name then 1 else 0) +
  (if f.sex.isSome then 1 else 0) +
  (if f.min_age.isSome then 1 else 0) +
  (if f.max_age.isSome then 1 else 0) +
  (if strTruthy f.marital_status then 1 else 0) +
  (if strTruthy f.education_level then 1 else 0)

/-- Which condition each filter field would contribute, under the code's
truthiness test. -/
def condFromFilter (f : SearchFilters) : Cond → Prop
  | .regionEq v => f.region_name = some v ∧ v ≠ ""
  | .districtEq v => f.district_name = some v ∧ v ≠ ""
  | .sexEq v => ∃ sx, f.sex = some sx ∧ v = Sex.value sx
  | .ageGe v => f.min_age = some v
  | .ageLe v => f.max_age = some v
  | .maritalEq v => f.marital_status = some v ∧ v ≠ ""
  | .educationEq v => f.education_level = some v ∧ v ≠ ""

theorem mem_regionConds (f : SearchFilters) (c : Cond) :
    c ∈ regionConds f ↔ ∃ v, c = Cond.regionEq v ∧ f.region_name = some v ∧ v ≠ "" := by
  unfold regionConds
  cases hr : f.region_name with
  | none => simp
  | some s => by_cases hs : s = "" <;> simp [hs] <;> aesop

theorem mem_districtConds (f : SearchFilters) (c : Cond) :
    c ∈ districtConds f ↔ ∃ v, c = Cond.districtEq v ∧ f.district_name = some v ∧ v ≠ "" := by
  unfold districtConds
  cases hr : f.district_name with
  | none => simp
  | some s => by_cases hs : s = "" <;> simp [hs] <;> aesop

theorem mem_sexConds (f : SearchFilters) (c : Cond) :
    c ∈ sexConds f ↔ ∃ sx, c = Cond.sexEq sx.value ∧ f.sex = some sx := by
  unfold sexConds
  cases hr : f.sex with
  | none => simp
  | some sx => simp

theorem mem_minAgeConds (f : SearchFilters) (c : Cond) :
    c ∈ minAgeConds f ↔ ∃ v, c = Cond.ageGe v ∧ f.min_age = some v := by
  unfold minAgeConds
  cases hr : f.min_age with
  | none => simp
  | some v => simp

theorem mem_maxAgeConds (f : SearchFilters) (c : Cond) :
    c ∈ maxAgeConds f ↔ ∃ v, c = Cond.ageLe v ∧ f.max_age = some v := by
  unfold maxAgeConds
  cases hr : f.max_age with
  | none => simp
  | some v => simp

theorem mem_maritalConds (f : SearchFilters) (c : Cond) :
    c ∈ maritalConds f ↔ ∃ v, c = Cond.maritalEq v ∧ f.marital_status = some v ∧ v ≠ "" := by
  unfold maritalConds
  cases hr : f.marital_status with
  | none => simp
  | some s => by_cases hs : s = "" <;> simp [hs] <;> aesop

theorem mem_educationConds (f : SearchFilters) (c : Cond) :
    c ∈ educationConds f ↔ ∃ v, c = Cond.educationEq v ∧ f.education_level = some v ∧ v ≠ "" := by
  unfold educationConds
  cases hr : f.education_level with
  | none => simp
  | some s => by_cases hs : s = "" <;> simp [hs] <;> aesop

theorem length_regionConds (f : SearchFilters) :
    (regionConds f).length = if strTruthy f.region_name then 1 else 0 := by
  unfold regionConds strTruthy
  cases f.region_name with
  | none => simp
  | some s => by_cases hs : s = "" <;> simp [hs]

theorem length_districtConds (f : SearchFilters) :
    (districtConds f).length = if strTruthy f.district_name then 1 else 0 := by
  unfold districtConds strTruthy
  cases f.district_name with
  | none => simp
  | some s => by_cases hs : s = "" <;> simp [hs]

theorem length_sexConds (f : SearchFilters) :
    (sexConds f).length = if f.sex.isSome then 1 else 0 := by
  unfold sexConds
  cases f.sex <;> simp

theorem length_minAgeConds (f : SearchFilters) :
    (minAgeConds f).length = if f.min_age.isSome then 1 else 0 := by
  unfold minAgeConds
  cases f.min_age <;> simp

theorem length_maxAgeConds (f : SearchFilters) :
    (maxAgeConds f).length = if f.max_age.isSome then 1 else 0 := by
  unfold maxAgeConds
  cases f.max_age <;> simp

theorem length_maritalConds (f : SearchFilters) :
    (maritalConds f).length = if strTruthy f.marital_status then 1 else 0 := by
  unfold maritalConds strTruthy
  cases f.marital_status with
  | none => simp
  | some s => by_cases hs : s = "" <;> simp [hs]

theorem length_educationConds (f : SearchFilters) :
    (educationConds f).length = if strTruthy f.education_level then 1 else 0 := by
  unfold educationConds strTruthy
  cases f.education_level with
  | none => simp
  | some s => by_cases hs : s = "" <;> simp [hs]

/-- A filter whose `region_name` was supplied as the empty string and whose
other fields are absent. -/
def emptyRegionFilter : SearchFilters :=
  ⟨some "", none, none, none, none, none, none⟩

/-- The all-fields-absent filter. -/
def emptyFilter : SearchFilters :=
  ⟨none, none, none, none, none, none, none⟩

/-- C2 counterexample: the filter whose `region_name` is the (present,
non-`None`) empty string has one present field but contributes zero WHERE
conditions, because `search_individuals` tests the field with Python
truthiness (`if filters.region_name:`) rather than `is not None`; so the
WHERE clause does not contain one condition per present field. -/
theorem C2_present_field_counterexample :
    presentFieldCount emptyRegionFilter = 1 ∧
    (whereConditions emptyRegionFilter).length = 0 ∧
    (whereConditions emptyRegionFilter).length ≠ presentFieldCount emptyRegionFilter := by
  refine ⟨rfl, rfl, ?_⟩
  decide

/-- C2 (amended): one AND-ed parameterized condition per *truthy* field — for
the four plain string filters this means supplied and non-empty, for the enum
`sex` and the two `is not None` age filters it means supplied — with equality
for region, district, sex, marital status, education level, `>=` for
`min_age` and `<=` for `max_age` as two independent comparisons; a field that
is absent (or an empty string) contributes no condition, and the all-absent
filter yields the `1=1` always-true predicate rather than an error. -/
theorem C2_where_clause_amended (f : SearchFilters) :
    (whereConditions f).length = truthyFieldCount f ∧
    (∀ c, c ∈ whereConditions f ↔ condFromFilter f c) ∧
    whereClauseStr emptyFilter = "1=1" ∧
    (∀ r, rowMatches emptyFilter r = true) := by
  refine ⟨?_, ?_, rfl, fun r => rfl⟩
  · simp only [whereConditions, truthyFieldCount, List.length_append,
      length_regionConds, length_districtConds, length_sexConds,
      length_minAgeConds, length_maxAgeConds, length_maritalConds,
      length_educationConds]
  · intro c
    simp only [whereConditions, List.mem_append, mem_regionConds,
      mem_districtConds, mem_sexConds, mem_minAgeConds, mem_maxAgeConds,
      mem_maritalConds, mem_educationConds]
    cases c <;> simp [condFromFilter] <;> aesop

/-! ## Event-trace model of the context managers and the stored-procedure
operations (`oracle_connection.py` and the CRUD methods of `db_service.py`)

Each operation is embedded as a function from the stored procedure's outcome
(which the gateway does not control) to the sequence of connection-level
events the Python code performs, together with whether an exception
propagates to the caller and the value returned. -/

/-- A connection-level event performed by the gateway. -/
inductive Ev where
  | connect
  | acquire
  | call (name : String)
  | commit
  | rollback
  | close
deriving DecidableEq

/-- Whether the body of a `with` block completes normally or raises an
exception that propagates into the context manager. -/
inductive Outcome where
  | ok
  | raises
deriving DecidableEq

/-- `DirectOracleConnection.get_connection` (`oracle_connection.py`,
lines 150-165): `oracledb.connect`, yield; on an exception propagating out of
the body, `connection.rollback()` and re-raise; in all cases
`connection.close()` in the `finally` block. The context manager itself never
commits. -/
def withGetConnection (inner : List Ev) (out : Outcome) : List Ev × Outcome :=
  match out with
  | .ok => (Ev.connect :: inner ++ [Ev.close], .ok)
  | .raises => (Ev.connect :: inner ++ [Ev.rollback, Ev.close], .raises)

/-- `OracleConnectionManager.get_session_context` (`oracle_connection.py`,
lines 69-81): acquire a pooled session, yield, `session.commit()` on normal
return, `session.rollback()` and re-raise on exception, `session.close()` in
the `finally` block. -/
def withSessionContext (inner : List Ev) (out : Outcome) : List Ev × Outcome :=
  match out with
  | .ok => (Ev.acquire :: inner ++ [Ev.commit, Ev.close], .ok)
  | .raises => (Ev.acquire :: inner ++ [Ev.rollback, Ev.close], .raises)

/-- The run of one gateway operation: connection events, whether an
exception propagated to the caller, and the boolean value returned (when the
operation returned). -/
structure OpRun where
  events : List Ev
  raised : Bool
  result : Option Bool
deriving DecidableEq

/-- Outcome of a stored-procedure call that binds no output variable: the
procedure either completes (whether or not it located a target row — this
calling convention cannot tell) or raises a database error. -/
inductive ProcOutcome where
  | completes
  | dbError
deriving DecidableEq

/-- The shared shape of every `update_*` / `delete_*` method except
`delete_individual` (`db_service.py`, e.g. lines 53-77 and 164-178): inside
`with DirectOracleConnection.get_connection()`, `cursor.callproc(name, ...)`
then `connection.commit()` and `return True`; `except Exception` catches any
failure inside the body, logs it and `return False` — the exception never
reaches the context manager, so no rollback happens and nothing is
re-raised. -/
def updateOrDeleteOp (procName : String) (r : ProcOutcome) : OpRun :=
  match r with
  | .completes =>
    let t := withGetConnection [Ev.call procName, Ev.commit] .ok
    ⟨t.1, false, some true⟩
  | .dbError =>
    let t := withGetConnection [Ev.call procName] .ok
    ⟨t.1, false, some false⟩

/-- `CensusService.update_geographical_info` (`db_service.py`,
lines 53-77). -/
def update_geographical_info (r : ProcOutcome) : OpRun :=
  updateOrDeleteOp "SP_UPDATE_GEOGRAPHICAL_INFO" r

/-- `CensusService.delete_household` (`db_service.py`, lines 164-178): calls
`SP_DELETE_HOUSEHOLD` with the single input parameter `household_id` and no
output variable. -/
def delete_household (r : ProcOutcome) : OpRun :=
  updateOrDeleteOp "SP_DELETE_HOUSEHOLD" r

/-- `CensusService.delete_geographical_info` (`db_service.py`,
lines 79-93). -/
def delete_geographical_info (r : ProcOutcome) : OpRun :=
  updateOrDeleteOp "SP_DELETE_GEOGRAPHICAL_INFO" r

/-- `CensusService.update_household` (`db_service.py`, lines 142-162). -/
def update_household (r : ProcOutcome) : OpRun :=
  updateOrDeleteOp "SP_UPDATE_HOUSEHOLD" r

/-- `CensusService.update_individual` (`db_service.py`, lines 238-263). -/
def update_individual (r : ProcOutcome) : OpRun :=
  updateOrDeleteOp "SP_UPDATE_INDIVIDUAL" r

/-- `CensusService.update_housing` (`db_service.py`, lines 335-359). -/
def update_housing (r : ProcOutcome) : OpRun :=
  updateOrDeleteOp "SP_UPDATE_HOUSING" r

/-- `CensusService.delete_housing` (`db_service.py`, lines 361-375). -/
def delete_housing (r : ProcOutcome) : OpRun :=
  updateOrDeleteOp "SP_DELETE_HOUSING" r

/-- Outcome of a `SP_INSERT_*` call: completes and fills in the generated id
output variable, or raises a database error. -/
inductive CreateOutcome where
  | completes (newId : Int)
  | dbError
deriving DecidableEq

/-- The run of a `create_*` method: events, propagation flag, returned id. -/
structure CreateRun where
  events : List Ev
  raised : Bool
  result : Option Int
deriving DecidableEq

/-- The shared shape of every `create_*` method (`db_service.py`, e.g.
lines 24-51): inside `with DirectOracleConnection.get_connection()`, bind the
id output variable, `cursor.callproc`, `connection.commit()`, return the id;
there is no `except` clause (only `finally: cursor.close()`), so a database
error propagates into the context manager, which rolls back and re-raises. -/
def createOp (procName : String) (r : CreateOutcome) : CreateRun :=
  match r with
  | .completes newId =>
    let t := withGetConnection [Ev.call procName, Ev.commit] .ok
    ⟨t.1, false, some newId⟩
  | .dbError =>
    let t := withGetConnection [Ev.call procName] .raises
    ⟨t.1, true, none⟩

/-- `CensusService.create_geographical_info` (`db_service.py`,
lines 24-51). -/
def create_geographical_info (r : CreateOutcome) : CreateRun :=
  createOp "SP_INSERT_GEOGRAPHICAL_INFO" r

/-- `CensusService.create_household` (`db_service.py`, lines 118-140). -/
def create_household (r : CreateOutcome) : CreateRun :=
  createOp "SP_INSERT_HOUSEHOLD" r

/-- `CensusService.create_individual` (`db_service.py`, lines 209-236). -/
def create_individual (r : CreateOutcome) : CreateRun :=
  createOp "SP_INSERT_INDIVIDUAL" r

/-- Outcome of the `SP_DELETE_INDIVIDUAL` call, which binds a boolean output
variable: completes and fills in the success flag, raises
`oracledb.DatabaseError`, or raises some other exception. -/
inductive DelIndOutcome where
  | completes (success : Bool)
  | dbError
  | otherError
deriving DecidableEq

/-- `CensusService.delete_individual` (`db_service.py`, lines 265-276):
binds `success = cursor.var(bool)`, calls
`SP_DELETE_INDIVIDUAL(individual_id, success)` and returns
`success.getvalue()`; it never calls `connection.commit()`. An
`oracledb.DatabaseError` is caught inside the body (log, `return False`), so
it never reaches the context manager and no rollback happens; any other
exception propagates, so the context manager rolls back and re-raises. -/
def delete_individual (r : DelIndOutcome) : OpRun :=
  match r with
  | .completes b =>
    let t := withGetConnection [Ev.call "SP_DELETE_INDIVIDUAL"] .ok
    ⟨t.1, false, some b⟩
  | .dbError =>
    let t := withGetConnection [Ev.call "SP_DELETE_INDIVIDUAL"] .ok
    ⟨t.1, false, some false⟩
  | .otherError =>
    let t := withGetConnection [Ev.call "SP_DELETE_INDIVIDUAL"] .raises
    ⟨t.1, true, none⟩

/-! ## Parameter bind lists of the two delete calls (C4) -/

/-- Kind of one bound parameter of a `cursor.callproc` call. -/
inductive BindKind where
  | inParam
  | outNumber
  | outBool
  | outCursor
deriving DecidableEq

/-- `cursor.callproc('SP_DELETE_HOUSEHOLD', [household_id])`: a single input
parameter, no output variable of any kind. -/
def deleteHouseholdBinds : List BindKind := [BindKind.inParam]

/-- `cursor.callproc('SP_DELETE_INDIVIDUAL', [individual_id, success])` with
`success = cursor.var(bool)`: one input parameter and one boolean output
variable. -/
def deleteIndividualBinds : List BindKind := [BindKind.inParam, BindKind.outBool]

/-- C4 counterexample: `delete_household` binds no boolean output parameter
on its `SP_DELETE_HOUSEHOLD` call (the bind list is the single input
parameter), and when the procedure completes without raising — as for a
household id with no matching row — it returns `True`, not the
claimed not-found `False` read from an output parameter. -/
theorem C4_delete_household_counterexample :
    BindKind.outBool ∉ deleteHouseholdBinds ∧
    (delete_household ProcOutcome.completes).result = some true ∧
    (delete_household ProcOutcome.completes).result ≠ some false := by
  refine ⟨by decide, rfl, by decide⟩

/-- C4 (amended): only `delete_individual` follows the boolean-output
convention: it binds a boolean output parameter and returns its value as the
success flag without raising, so a missing individual id yields `False`
rather than an exception; `delete_household` binds no output parameter and
returns `True` whenever the procedure call raises no exception (and `False`
when it does), so for households the absence of an exception does not mean
the target row was found. -/
theorem C4_boolean_output_amended :
    BindKind.outBool ∈ deleteIndividualBinds ∧
    (∀ b, (delete_individual (DelIndOutcome.completes b)).result = some b ∧
      (delete_individual (DelIndOutcome.completes b)).raised = false) ∧
    BindKind.outBool ∉ deleteHouseholdBinds ∧
    (∀ r, (delete_household r).raised = false) ∧
    (delete_household ProcOutcome.completes).result = some true ∧
    (delete_household ProcOutcome.dbError).result = some false := by
  refine ⟨by decide, ?_, by decide, ?_, rfl, rfl⟩
  · intro b
    cases b <;> exact ⟨rfl, rfl⟩
  · intro r
    cases r <;> rfl

/-- C5 counterexample: `delete_individual` is a gateway operation whose
session (via `DirectOracleConnection.get_connection`) completes normally, yet
its trace contains no commit at all — so it is not the case that every
session wrapping a gateway operation commits exactly once on normal
return. -/
theorem C5_commit_counterexample :
    (delete_individual (DelIndOutcome.completes true)).raised = false ∧
    ((delete_individual (DelIndOutcome.completes true)).events).count Ev.commit
      = 0 := by
  exact ⟨rfl, by decide⟩

/-- C5 (amended): `get_session_context` commits exactly once on normal
return, rolls back exactly once and re-raises on a propagated failure, and
closes the session exactly once on every exit path;
`DirectOracleConnection.get_connection` likewise rolls back on a propagated
failure and closes the connection exactly once on every exit path, but never
commits itself — any commit in its trace comes from the inner operation, and
`delete_individual` performs none. -/
theorem C5_session_lifecycle_amended (inner : List Ev) (out : Outcome)
    (hc : Ev.commit ∉ inner) (hr : Ev.rollback ∉ inner)
    (hcl : Ev.close ∉ inner) :
    (withSessionContext inner out).1.count Ev.close = 1 ∧
    (withSessionContext inner out).1.count Ev.commit
      = (if out = Outcome.ok then 1 else 0) ∧
    (withSessionContext inner out).1.count Ev.rollback
      = (if out = Outcome.ok then 0 else 1) ∧
    (withSessionContext inner out).2 = out ∧
    (withGetConnection inner out).1.count Ev.close = 1 ∧
    (withGetConnection inner out).1.count Ev.commit = inner.count Ev.commit ∧
    (withGetConnection inner out).1.count Ev.rollback
      = (if out = Outcome.ok then 0 else 1) ∧
    (withGetConnection inner out).2 = out := by
  have hc0 : inner.count Ev.commit = 0 := List.count_eq_zero_of_not_mem hc
  have hr0 : inner.count Ev.rollback = 0 := List.count_eq_zero_of_not_mem hr
  have hcl0 : inner.count Ev.close = 0 := List.count_eq_zero_of_not_mem hcl
  cases out <;>
    simp [withSessionContext, withGetConnection, List.count_cons,
      List.count_append, hc0, hr0, hcl0]

/-- C5 witness: the amended lifecycle facts at the concrete inner trace of a
single `SP_DELETE_HOUSEHOLD` procedure call, on the normal path. -/
theorem C5_session_lifecycle_witness :
    (withGetConnection [Ev.call "SP_DELETE_HOUSEHOLD"] Outcome.ok).1.count
      Ev.close = 1 ∧
    (withSessionContext [Ev.call "SP_DELETE_HOUSEHOLD"] Outcome.ok).1.count
      Ev.commit = (if Outcome.ok = Outcome.ok then 1 else 0) := by
  have h := C5_session_lifecycle_amended [Ev.call "SP_DELETE_HOUSEHOLD"]
    Outcome.ok (by decide) (by decide) (by decide)
  exact ⟨h.2.2.2.2.1, h.2.1⟩

/-- C6 counterexample: a database-level failure during
`update_geographical_info`'s procedure call is caught inside the `with` body
and converted into the normal return value `False`: nothing is re-raised and
the session performs no rollback — contradicting the claim that every such
failure rolls back and surfaces as a raised failure. -/
theorem C6_update_failure_counterexample :
    (update_geographical_info ProcOutcome.dbError).raised = false ∧
    (update_geographical_info ProcOutcome.dbError).result = some false ∧
    (update_geographical_info ProcOutcome.dbError).events.count Ev.rollback
      = 0 := by
  refine ⟨rfl, rfl, by decide⟩

/-- C6 (amended): for the `create_*` methods (which have no `except` clause)
a database-level failure does propagate — the session rolls back exactly once
and the raw database exception is re-raised to the caller (the code defines
no `ProcedureFailure` wrapper); but every `update_*` / `delete_*` method
except `delete_individual` catches the failure inside the session body and
converts it into the normal return value `False`, with no rollback and
nothing re-raised. -/
theorem C6_error_propagation_amended :
    (∀ name, (createOp name CreateOutcome.dbError).raised = true ∧
      (createOp name CreateOutcome.dbError).events.count Ev.rollback = 1 ∧
      (createOp name CreateOutcome.dbError).result = none) ∧
    (∀ name newId,
      (createOp name (CreateOutcome.completes newId)).raised = false ∧
      (createOp name (CreateOutcome.completes newId)).events.count Ev.commit
        = 1 ∧
      (createOp name (CreateOutcome.completes newId)).result = some newId) ∧
    (∀ name, (updateOrDeleteOp name ProcOutcome.dbError).raised = false ∧
      (updateOrDeleteOp name ProcOutcome.dbError).result = some false ∧
      (updateOrDeleteOp name ProcOutcome.dbError).events.count Ev.rollback
        = 0) := by
  refine ⟨fun name => ⟨rfl, ?_, rfl⟩, fun name newId => ⟨rfl, ?_, rfl⟩,
    fun name => ⟨rfl, rfl, ?_⟩⟩ <;>
    simp [createOp, updateOrDeleteOp, withGetConnection, List.count_cons,
      List.count_append]

/-- C9 counterexample: when `SP_DELETE_INDIVIDUAL` raises an
`oracledb.DatabaseError`, `delete_individual` catches it and returns `False`;
the exception never reaches the context manager, so the connection is closed
with no rollback ever called — contradicting the claim's assertion that the
connection is rolled back on exception. -/
theorem C9_rollback_counterexample :
    (delete_individual DelIndOutcome.dbError).events.count Ev.rollback = 0 ∧
    (delete_individual DelIndOutcome.dbError).result = some false ∧
    (delete_individual DelIndOutcome.dbError).raised = false := by
  refine ⟨by decide, rfl, rfl⟩

/-- C9 (amended): `delete_individual` never calls commit on any path — the
boolean success output is read and returned and the connection is closed
without an explicit commit; a caught `oracledb.DatabaseError` is converted
into `False` with no rollback, and only a non-database exception propagates
and triggers the context manager's rollback; unlike every other
create/update/delete service method, which commits explicitly before
returning on its success path. -/
theorem C9_delete_individual_no_commit_amended :
    (∀ r, (delete_individual r).events.count Ev.commit = 0) ∧
    (delete_individual DelIndOutcome.otherError).events.count Ev.rollback
      = 1 ∧
    (delete_individual DelIndOutcome.otherError).raised = true ∧
    (∀ name, (updateOrDeleteOp name ProcOutcome.completes).events.count
      Ev.commit = 1) ∧
    (∀ name newId, (createOp name (CreateOutcome.completes newId)).events.count
      Ev.commit = 1) := by
  refine ⟨?_, by decide, rfl, ?_, ?_⟩
  · intro r
    cases r with
    | completes b => cases b <;> decide
    | dbError => decide
    | otherError => decide
  · intro name
    simp [updateOrDeleteOp, withGetConnection, List.count_cons,
      List.count_append]
  · intro name newId
    simp [createOp, withGetConnection, List.count_cons, List.count_append]

/-! ## Connection accounting model (C7)

`OracleConnectionManager._initialize_engine` (`oracle_connection.py`,
lines 35-48) configures a SQLAlchemy `QueuePool` with `pool_size` and
`max_overflow`; the pool hands out at most `pool_size + max_overflow`
connections. `DirectOracleConnection.get_connection` (lines 150-165) instead
calls `oracledb.connect(**ORACLE_CONFIG)` directly, creating a new physical
connection that the pool neither owns nor counts. -/

/-- The externally supplied pool sizing. -/
structure PoolConfig where
  size : Nat
  overflow : Nat
deriving DecidableEq

/-- Connections held by the gateway: pool checkouts, idle pooled
connections, and direct `oracledb.connect` connections. -/
structure GwState where
  checkedOut : Nat
  idle : Nat
  direct : Nat
deriving DecidableEq

/-- One connection-accounting step of the gateway. -/
inductive GwOp where
  | poolAcquire
  | poolRelease
  | directOpen
  | directClose
deriving DecidableEq

/-- Transition function: a pool acquire reuses an idle connection when one
exists, creates a new pooled connection only below the
`size + overflow` ceiling, and otherwise blocks (no state change, modelling
the pool-timeout failure); a direct open always creates one more physical
connection, unconditionally. -/
def gwStep (cfg : PoolConfig) (s : GwState) : GwOp → GwState
  | .poolAcquire =>
    if 0 < s.idle then ⟨s.checkedOut + 1, s.idle - 1, s.direct⟩
    else if s.checkedOut + s.idle < cfg.size + cfg.overflow then
      ⟨s.checkedOut + 1, s.idle, s.direct⟩
    else s
  | .poolRelease =>
    if 0 < s.checkedOut then ⟨s.checkedOut - 1, s.idle + 1, s.direct⟩ else s
  | .directOpen => ⟨s.checkedOut, s.idle, s.direct + 1⟩
  | .directClose => ⟨s.checkedOut, s.idle, s.direct - 1⟩

/-- Run a sequence of connection-accounting steps. -/
def gwRun (cfg : PoolConfig) (s : GwState) (ops : List GwOp) : GwState :=
  ops.foldl (gwStep cfg) s

/-- Total physical connections the gateway holds. -/
def totalHeld (s : GwState) : Nat := s.checkedOut + s.idle + s.direct

/-- The pool-ceiling invariant on the connections the pool manages. -/
abbrev poolInv (cfg : PoolConfig) (s : GwState) : Prop :=
  s.checkedOut + s.idle ≤ cfg.size + cfg.overflow

/-- C7 counterexample: with `pool_size = 2` and `max_overflow = 1`, three
outstanding pool checkouts plus one direct `oracledb.connect` connection —
exactly what one in-flight stored-procedure operation opens via
`DirectOracleConnection.get_connection` — put the gateway at 4 held
connections, above the configured ceiling of 3; the stored-procedure
operations never go through the pool at all (`delete_household`'s trace opens
a direct connection and contains no pool acquire). -/
theorem C7_pool_bound_counterexample :
    totalHeld (gwRun ⟨2, 1⟩ ⟨0, 0, 0⟩
      [GwOp.poolAcquire, GwOp.poolAcquire, GwOp.poolAcquire,
        GwOp.directOpen]) = 4 ∧
    ¬ totalHeld (gwRun ⟨2, 1⟩ ⟨0, 0, 0⟩
      [GwOp.poolAcquire, GwOp.poolAcquire, GwOp.poolAcquire,
        GwOp.directOpen]) ≤ 2 + 1 ∧
    Ev.connect ∈ (delete_household ProcOutcome.completes).events ∧
    Ev.acquire ∉ (delete_household ProcOutcome.completes).events := by
  refine ⟨by decide, by decide, by decide, by decide⟩

/-- C7 (amended): the connections managed by the SQLAlchemy `QueuePool`
itself never exceed `pool_size + max_overflow` — the invariant
`checkedOut + idle ≤ size + overflow` is preserved by every sequence of pool
operations — but gateway operations that use
`DirectOracleConnection.get_connection` open a fresh physical `oracledb`
connection outside the pool on every call (their traces contain a direct
connect and no pool acquire), so the gateway's total held connections are not
bounded by the pool ceiling. -/
theorem C7_pool_bound_amended (cfg : PoolConfig) (ops : List GwOp)
    (hops : ∀ op ∈ ops, op = GwOp.poolAcquire ∨ op = GwOp.poolRelease)
    (s : GwState) (hs : poolInv cfg s) :
    poolInv cfg (gwRun cfg s ops) ∧
    (∀ name r, Ev.connect ∈ (updateOrDeleteOp name r).events ∧
      Ev.acquire ∉ (updateOrDeleteOp name r).events) := by
  constructor
  · induction ops generalizing s with
    | nil => exact hs
    | cons op rest ih =>
      have hop := hops op (List.mem_cons_self op rest)
      have hrest : ∀ o ∈ rest, o = GwOp.poolAcquire ∨ o = GwOp.poolRelease :=
        fun o ho => hops o (List.mem_cons_of_mem op ho)
      have hstep : poolInv cfg (gwStep cfg s op) := by
        rcases hop with rfl | rfl <;>
          (simp only [gwStep, poolInv]; split_ifs <;> (try dsimp only) <;> omega)
      simpa [gwRun, List.foldl_cons] using
        (ih (fun o ho => hrest o ho) (gwStep cfg s op) hstep)
  · intro name r
    cases r <;>
      simp [updateOrDeleteOp, withGetConnection]

/-- C7 witness: the amended pool invariant at the concrete configuration
`size = 2, overflow = 1`, a three-acquire trace, and the empty initial
state. -/
theorem C7_pool_bound_witness :
    poolInv ⟨2, 1⟩ (gwRun ⟨2, 1⟩ ⟨0, 0, 0⟩
      [GwOp.poolAcquire, GwOp.poolAcquire, GwOp.poolAcquire]) := by
  have h := C7_pool_bound_amended ⟨2, 1⟩
    [GwOp.poolAcquire, GwOp.poolAcquire, GwOp.poolAcquire]
    (by decide) ⟨0, 0, 0⟩ (by decide)
  exact h.1

/-! ## C8: page count formula and the seeded search scenario -/

/-- The page count derived by the `/search/individuals` route
(`census_routes.py`, line 390): `(total_count + size - 1) // size`. -/
def pagesCount (total size : Nat) : Nat := (total + size - 1) / size

/-- The scenario filter: `min_age=18, max_age=65`, nothing else. -/
def ageFilter : SearchFilters :=
  ⟨none, none, none, some 18, some 65, none, none⟩

/-- Seeded data: one geographical area, one household, 13 individuals of
which exactly 12 have ages in `[18, 65]` (the 13th is 70). -/
def seededSnapshot : Snapshot :=
  { individuals :=
      [⟨1, 1, "M", 18, "SINGLE", "JHS"⟩, ⟨2, 1, "F", 19, "SINGLE", "JHS"⟩,
       ⟨3, 1, "M", 20, "SINGLE", "SHS"⟩, ⟨4, 1, "F", 21, "SINGLE", "SHS"⟩,
       ⟨5, 1, "M", 22, "MARRIED", "JHS"⟩, ⟨6, 1, "F", 23, "MARRIED", "JHS"⟩,
       ⟨7, 1, "M", 24, "SINGLE", "NONE"⟩, ⟨8, 1, "F", 25, "SINGLE", "NONE"⟩,
       ⟨9, 1, "M", 26, "MARRIED", "SHS"⟩, ⟨10, 1, "F", 27, "MARRIED", "SHS"⟩,
       ⟨11, 1, "M", 28, "SINGLE", "JHS"⟩, ⟨12, 1, "F", 29, "SINGLE", "JHS"⟩,
       ⟨13, 1, "M", 70, "MARRIED", "NONE"⟩]
    households := [⟨1, 1⟩]
    geos := [⟨1, "Greater Accra", "Accra Metro", "Accra"⟩] }

/-- C8: for every `totalCount` and page size in 1..100, the route's integer
formula `(total_count + size - 1) // size` equals `ceil(totalCount / size)`;
and in the seeded scenario — 12 individuals matching `min_age=18, max_age=65`
— the search at page 1 with size 5 returns exactly 5 rows, `totalCount = 12`,
and the derived page count is 3. -/
theorem C8_page_count (total size : Nat) (h1 : 1 ≤ size) (h2 : size ≤ 100) :
    (pagesCount total size : ℤ) = ⌈(total : ℚ) / (size : ℚ)⌉ ∧
    (search_individuals ageFilter ⟨1, 5⟩ seededSnapshot).1.length = 5 ∧
    (search_individuals ageFilter ⟨1, 5⟩ seededSnapshot).2 = 12 ∧
    pagesCount 12 5 = 3 := by
  refine ⟨?_, by decide, by decide, rfl⟩
  have hpos : 0 < size := h1
  unfold pagesCount
  have hq : size * ((total + size - 1) / size) + (total + size - 1) % size
      = total + size - 1 := Nat.div_add_mod _ _
  have hr : (total + size - 1) % size < size := Nat.mod_lt _ hpos
  set q := (total + size - 1) / size with hqdef
  have hub : total ≤ size * q := by omega
  have hlb : size * q < total + size := by omega
  have hszq : (0 : ℚ) < (size : ℚ) := by exact_mod_cast hpos
  have hubQ : (total : ℚ) ≤ (size : ℚ) * (q : ℚ) := by exact_mod_cast hub
  have hlbQ : (size : ℚ) * (q : ℚ) < (total : ℚ) + (size : ℚ) := by
    exact_mod_cast hlb
  rw [eq_comm, Int.ceil_eq_iff]
  refine ⟨?_, ?_⟩
  · rw [lt_div_iff₀ hszq]
    push_cast
    nlinarith [hlbQ]
  · rw [div_le_iff₀ hszq]
    push_cast
    nlinarith [hubQ]

/-- C8 witness: the formula at `totalCount = 12`, `size = 5` (page count 3),
with the hypotheses 1 ≤ 5 and 5 ≤ 100 discharged. -/
theorem C8_page_count_witness :
    (pagesCount 12 5 : ℤ) = ⌈((12 : Nat) : ℚ) / ((5 : Nat) : ℚ)⌉ ∧
    pagesCount 12 5 = 3 := by
  have h := C8_page_count 12 5 (by decide) (by decide)
  exact ⟨h.1, h.2.2.2⟩

/-! ## C10: zero as an identifier in the three read queries
(`db_service.py`, lines 95-112, 180-203, 279-303) -/

/-- `ORDER BY region_name, district_name` on `GEOGRAPHICAL_INFO` rows. -/
def geoLe (a b : GeoRow) : Bool :=
  decide (a.region_name < b.region_name) ||
    (a.region_name == b.region_name &&
      decide (a.district_name ≤ b.district_name))

/-- `CensusService.get_geographical_info`: `if geo_id:` — Python truthiness,
so both `None` and `0` leave the query unfiltered. -/
def get_geographical_info (gid : Option Int) (rows : List GeoRow) :
    List GeoRow :=
  sortByLe geoLe
    (match gid with
     | some v => if v != 0 then rows.filter (fun r => r.geo_id == v) else rows
     | none => rows)

/-- `HOUSEHOLD h JOIN GEOGRAPHICAL_INFO g ON h.geo_id = g.geo_id`. -/
def householdGeoJoin (hs : List HouseholdRow) (gs : List GeoRow) :
    List (HouseholdRow × GeoRow) :=
  hs.flatMap fun h => (gs.filter fun g => g.geo_id == h.geo_id).map fun g => (h, g)

/-- `ORDER BY g.region_name, g.district_name, h.household_id`. -/
def hgLe (a b : HouseholdRow × GeoRow) : Bool :=
  decide (a.2.region_name < b.2.region_name) ||
    (a.2.region_name == b.2.region_name &&
      (decide (a.2.district_name < b.2.district_name) ||
        (a.2.district_name == b.2.district_name &&
          decide (a.1.household_id ≤ b.1.household_id))))

/-- `CensusService.get_households`: starts from `WHERE 1=1` and appends
`AND h.household_id = :household_id` / `AND h.geo_id = :geo_id` only under
`if household_id:` / `if geo_id:` — Python truthiness, so `0` filters
nothing. -/
def get_households (household_id geo_id : Option Int) (hs : List HouseholdRow)
    (gs : List GeoRow) : List (HouseholdRow × GeoRow) :=
  let rows := householdGeoJoin hs gs
  let rows1 := match household_id with
    | some v => if v != 0 then rows.filter (fun r => r.1.household_id == v)
        else rows
    | none => rows
  let rows2 := match geo_id with
    | some v => if v != 0 then rows1.filter (fun r => r.1.geo_id == v)
        else rows1
    | none => rows1
  sortByLe hgLe rows2

/-- `ORDER BY INDIVIDUAL_ID DESC`. -/
def indDescLe (a b : IndividualRow) : Bool :=
  decide (b.individual_id ≤ a.individual_id)

/-- `CensusService.get_individuals`: both id filters are appended under an
explicit `is not None` test, so `0` is a real filter value; then
`ORDER BY INDIVIDUAL_ID DESC` and `FETCH FIRST :limit ROWS ONLY` when a
limit was supplied. -/
def get_individuals (individual_id household_id : Option Int)
    (limit : Option Nat) (rows : List IndividualRow) : List IndividualRow :=
  let pred := fun (r : IndividualRow) =>
    (match individual_id with | some v => r.individual_id == v | none => true)
      && (match household_id with | some v => r.household_id == v | none => true)
  let sorted := sortByLe indDescLe (rows.filter pred)
  match limit with
  | some n => sorted.take n
  | none => sorted

/-- C10: an id of `0` is falsy in Python, so `get_geographical_info` and
`get_households` treat it exactly like `None` and return every row
unfiltered; `get_individuals` tests `is not None`, so an `individual_id` of
`0` filters the view down to exactly the rows whose `INDIVIDUAL_ID` is 0. -/
theorem C10_zero_id_semantics (geoRows : List GeoRow)
    (hs : List HouseholdRow) (gs : List GeoRow)
    (inds : List IndividualRow) :
    get_geographical_info (some 0) geoRows
      = get_geographical_info none geoRows ∧
    get_households (some 0) none hs gs = get_households none none hs gs ∧
    get_households none (some 0) hs gs = get_households none none hs gs ∧
    (∀ r, r ∈ get_individuals (some 0) none none inds ↔
      r ∈ inds ∧ r.individual_id = 0) := by
  refine ⟨rfl, rfl, rfl, ?_⟩
  intro r
  simp [get_individuals, mem_sortByLe, List.mem_filter]
